import Mathlib

/-!
Verification of the netbox-dnsupdate event-to-update orchestration core.

This file is a shallow embedding, in Lean 4, of the pure core of the
netbox-dnsupdate Go program: the nsupdate script compiler
(`ConstructNSUpdateScript`, `ConstructPTRUpdateScript` in `dns_update.go`),
the value-normalization helpers (`adjustCNAMEValue`, `getZoneNameFromFQDN`,
`reverseDNSName`, `isValidIP` in `helpers.go`), the event handlers
(`handleCreatedEvent`, `handleDeletedEvent`, `handleUpdatedEvent` in
`event_handlers.go`), and the PTR synchronization routine (`handlePTRUpdate`
in `ptr_handler.go`).

Go strings are modelled as Lean `String`; Go `*int` as `Option Int`;
nil-able struct pointers as `Option`; `strings.Builder` accumulation as
string concatenation.  The Go standard library functions the core calls
(`net.ParseIP`, `net.SplitHostPort`, `strings.TrimSpace`, …) are embedded
faithfully following the Go 1.23 implementations (`net/netip` parser).

Each event handler returns a `HandlerResult` recording the synchronous HTTP
outcome: `badRequest` models `http.Error(w, …, http.StatusBadRequest)`
followed by `return` (no goroutine is started), while `accepted script ptr`
models writing `http.StatusOK` after launching the background nsupdate
goroutine with `script` and (optionally) invoking `handlePTRUpdate` with the
recorded arguments.
-/

/-! ## Go string helpers -/

/-- Model of Go `unicode.IsSpace` (which `strings.TrimSpace` defers to):
the Unicode White_Space property, i.e. `'\t'`, `'\n'`, `'\v'`, `'\f'`,
`'\r'`, `' '`, U+0085, U+00A0 plus the `unicode.White_Space` range table. -/
def isGoSpace (c : Char) : Bool :=
  let n := c.toNat
  (0x9 ≤ n && n ≤ 0xd) || n == 0x20 || n == 0x85 || n == 0xa0 ||
  n == 0x1680 || (0x2000 ≤ n && n ≤ 0x200a) || n == 0x2028 || n == 0x2029 ||
  n == 0x202f || n == 0x205f || n == 0x3000

/-- Drop the leading whitespace characters (the `TrimLeftFunc` half of Go
`strings.TrimSpace`). -/
def trimLeftL (l : List Char) : List Char := l.dropWhile isGoSpace

/-- Drop the trailing whitespace characters (the `TrimRightFunc` half of Go
`strings.TrimSpace`). -/
def trimRightL (l : List Char) : List Char := (l.reverse.dropWhile isGoSpace).reverse

/-- Model of Go `strings.TrimSpace`: drop leading and trailing whitespace. -/
def goTrimSpace (s : String) : String := ⟨trimRightL (trimLeftL s.data)⟩

/-- Model of Go `strings.HasSuffix(s, ".")`: for the one-character suffix
`"."` this is exactly "the last character is `'.'`". -/
def goHasSuffixDot (s : String) : Bool := s.data.getLast? == some '.'

/-- Model of Go `strings.TrimSuffix(s, ".")`: remove one trailing `"."` if
present. -/
def goTrimSuffixDot (s : String) : String :=
  if goHasSuffixDot s then ⟨s.data.dropLast⟩ else s

/-- Model of Go `strings.ToUpper` restricted to its ASCII behaviour (record
types in this program are ASCII strings such as `"a"`, `"cname"`). -/
def goToUpper (s : String) : String := ⟨s.data.map Char.toUpper⟩

/-! ## nsupdate script construction (`dns_update.go`)

`fmt.Sprintf` with `%s`/`%d` verbs is modelled by string concatenation with
`toString` on the integer argument (Go prints a signed decimal, as Lean's
`toString : Int → String` does). -/

/-- The `server %s %s\n` line every script starts with. -/
def serverLine (host port : String) : String :=
  "server " ++ host ++ " " ++ port ++ "\n"

/-- The `update add %s %d IN %s %s\n` line. -/
def updateAddLine (fqdn : String) (ttl : Int) (recordType value : String) : String :=
  "update add " ++ fqdn ++ " " ++ toString ttl ++ " IN " ++ recordType ++ " " ++ value ++ "\n"

/-- The `update delete %s %s %s\n` line. -/
def updateDeleteLine (fqdn recordType value : String) : String :=
  "update delete " ++ fqdn ++ " " ++ recordType ++ " " ++ value ++ "\n"

/-- `ConstructNSUpdateScript` from `dns_update.go` (the variant without the
zone declaration, whose 8-argument signature is the one the event handlers
call): `server` line, then the event-dependent update operations, then
`send`.  The Go `switch event` is modelled by the `if`-chain; an unknown
event contributes no operation lines. -/
def ConstructNSUpdateScript (host port fqdn recordType oldValue newValue event : String)
    (ttl : Int) : String :=
  serverLine host port ++
  (if event = "created" then
    updateAddLine fqdn (if ttl ≤ 0 then 300 else ttl) recordType newValue
  else if event = "deleted" then
    updateDeleteLine fqdn recordType oldValue
  else if event = "updated" then
    updateDeleteLine fqdn recordType oldValue ++ updateAddLine fqdn ttl recordType newValue
  else "") ++
  "send\n"

/-- `ConstructPTRUpdateScript` from `dns_update.go`: like the forward script
but with fixed `PTR` type and no zone declaration. -/
def ConstructPTRUpdateScript (host port ptrName fqdn event : String) (ttl : Int) : String :=
  serverLine host port ++
  (if event = "created" then
    "update add " ++ ptrName ++ " " ++ toString (if ttl ≤ 0 then (300 : Int) else ttl) ++
      " IN PTR " ++ fqdn ++ "\n"
  else if event = "deleted" then
    "update delete " ++ ptrName ++ " PTR " ++ fqdn ++ "\n"
  else "") ++
  "send\n"

/-! ## CNAME value qualification (`helpers.go`, `getZoneNameFromFQDN` /
`adjustCNAMEValue`) -/

/-- `getZoneNameFromFQDN` from `helpers.go`: trim one trailing dot from the
fqdn and the record name; an empty record name means the zone is the whole
fqdn; otherwise strip the `recordName + "."` leading segment when present
(`strings.HasPrefix` / `strings.TrimPrefix`), and fall back to the fqdn when
it is not. -/
def getZoneNameFromFQDN (fqdn recordName : String) : String :=
  let fqdn := goTrimSuffixDot fqdn
  let recordName := goTrimSuffixDot recordName
  if recordName = "" then fqdn
  else if (recordName.data ++ ['.']).isPrefixOf fqdn.data then
    ⟨fqdn.data.drop (recordName.data.length + 1)⟩
  else fqdn

/-- `adjustCNAMEValue` from `helpers.go`: trim whitespace; a value already
ending in `"."` is returned as is; otherwise append `"." + zoneName + "."`
when a non-empty zone name can be derived, and return the (trimmed) value
unchanged when it cannot. -/
def adjustCNAMEValue (value fqdn recordName : String) : String :=
  let value := goTrimSpace value
  if goHasSuffixDot value then value
  else
    let zoneName := getZoneNameFromFQDN fqdn recordName
    if zoneName ≠ "" then value ++ "." ++ zoneName ++ "."
    else value

/-! ## IP address parsing (model of Go 1.23 `net.ParseIP`)

Go's `net.ParseIP` calls `netip.ParseAddr` and rejects addresses carrying a
zone; on success it returns the 16-byte `As16` form (IPv4 addresses come
back in their IPv4-in-IPv6 `::ffff:a.b.c.d` mapping).  An address is
modelled as the list of its 16 bytes (each a `Nat < 256`). -/

/-- The 12-byte prefix `0,…,0,0xff,0xff` that `netip.Addr.As16` puts in
front of a parsed IPv4 address. -/
def v4InV6 (fields : List Nat) : List Nat :=
  [0, 0, 0, 0, 0, 0, 0, 0, 0, 0, 0xff, 0xff] ++ fields

/-- `parseIPv4Fields` from `net/netip`: scan decimal octets separated by
`'.'`.  A digit after a lone leading `'0'` is rejected, an octet above 255
is rejected, a dot with no digits before it, a trailing dot, a fifth field,
and any other character are rejected.  `val`/`digLen`/`pos` mirror the Go
locals; `fields` accumulates the `pos` completed octets. -/
def parseIPv4Fields : List Char → Nat → Nat → Nat → List Nat → Option (List Nat)
  | [], val, _, pos, fields =>
    if pos < 3 then none else some (fields ++ [val])
  | c :: rest, val, digLen, pos, fields =>
    if '0' ≤ c ∧ c ≤ '9' then
      if digLen = 1 ∧ val = 0 then none
      else
        let val' := val * 10 + (c.toNat - '0'.toNat)
        if val' > 255 then none
        else parseIPv4Fields rest val' (digLen + 1) pos fields
    else if c = '.' then
      if digLen = 0 then none
      else if rest = [] then none
      else if pos = 3 then none
      else parseIPv4Fields rest 0 0 (pos + 1) (fields ++ [val])
    else none

/-- Hex digit value, as accepted by the `netip` IPv6 group scanner. -/
def hexVal (c : Char) : Option Nat :=
  if '0' ≤ c ∧ c ≤ '9' then some (c.toNat - '0'.toNat)
  else if 'a' ≤ c ∧ c ≤ 'f' then some (c.toNat - 'a'.toNat + 10)
  else if 'A' ≤ c ∧ c ≤ 'F' then some (c.toNat - 'A'.toNat + 10)
  else none

/-- The hex-group scanner inside `parseIPv6`: consume up to four leading hex
digits, returning the accumulated value, the number of digits consumed, and
the rest of the string.  A fifth hex digit is an error (`none`). -/
def scanHexDigits : List Char → Nat → Nat → Option (Nat × Nat × List Char)
  | [], acc, n => some (acc, n, [])
  | c :: rest, acc, n =>
    match hexVal c with
    | some v =>
      if n + 1 > 4 then none
      else scanHexDigits rest (acc * 16 + v) (n + 1)
    | none => some (acc, n, c :: rest)

/-- The post-loop epilogue of `parseIPv6`: the whole string must have been
consumed; fewer than 16 bytes requires an ellipsis, which is expanded by
inserting `16 - i` zero bytes at its position; 16 bytes with an ellipsis is
an error (the ellipsis must stand for at least one zero group). -/
def parseIPv6Finish (ip : List Nat) (i : Nat) (s : List Char) (ellipsis : Option Nat) :
    Option (List Nat) :=
  if s ≠ [] then none
  else if i < 16 then
    match ellipsis with
    | none => none
    | some e => some (ip.take e ++ List.replicate (16 - i) 0 ++ ip.drop e)
  else
    match ellipsis with
    | some _ => none
    | none => some ip

/-- The main loop of `parseIPv6` from `net/netip`.  `s` is the unconsumed
input, `i` the number of bytes written so far (`ip` has length `i`),
`ellipsis` the byte position of a `::` if one was seen.  Each iteration
consumes one hex group and advances `i` by 2 (or by 4 for a trailing
embedded IPv4), so the loop runs at most 8 times; `fuel` (started at 9)
makes that termination measure explicit and is never exhausted. -/
def parseIPv6Loop : Nat → List Char → Nat → List Nat → Option Nat → Option (List Nat)
  | 0, _, _, _, _ => none
  | fuel + 1, s, i, ip, ellipsis =>
    if 16 ≤ i then parseIPv6Finish ip i s ellipsis
    else
      match scanHexDigits s 0 0 with
      | none => none
      | some (acc, n, rest) =>
        if n = 0 then none
        else
          match rest with
          | '.' :: _ =>
            if ellipsis.isNone ∧ i ≠ 12 then none
            else if i + 4 > 16 then none
            else
              match parseIPv4Fields s 0 0 0 [] with
              | none => none
              | some fourBytes => parseIPv6Finish (ip ++ fourBytes) (i + 4) [] ellipsis
          | [] => parseIPv6Finish (ip ++ [acc / 256, acc % 256]) (i + 2) [] ellipsis
          | ':' :: rest2 =>
            let ip := ip ++ [acc / 256, acc % 256]
            let i := i + 2
            match rest2 with
            | [] => none
            | ':' :: rest3 =>
              if ellipsis.isSome then none
              else if rest3 = [] then parseIPv6Finish ip i [] (some i)
              else parseIPv6Loop fuel rest3 i ip (some i)
            | _ => parseIPv6Loop fuel rest2 i ip ellipsis
          | _ => none

/-- `parseIPv6` from `net/netip`, minus the zone split (callers below reject
any `'%'` before reaching this function, exactly as `net.ParseIP` rejects
every address that carries a zone).  A leading `"::"` sets the ellipsis at
position 0; a bare `"::"` is the unspecified address (16 zero bytes). -/
def parseIPv6 (s : List Char) : Option (List Nat) :=
  match s with
  | ':' :: ':' :: rest =>
    if rest = [] then some (List.replicate 16 0)
    else parseIPv6Loop 9 rest 0 [] (some 0)
  | _ => parseIPv6Loop 9 s 0 [] none

/-- The dispatch loop of `netip.ParseAddr`: scan for the first `'.'`,
`':'` or `'%'`; the first decides IPv4 vs IPv6 parsing, a `'%'` first (or no
special character at all) is an error. -/
inductive IPClass where
  | v4
  | v6
  | invalid
deriving DecidableEq

/-- Classify a string the way `netip.ParseAddr`'s dispatch loop does. -/
def classifyIP : List Char → IPClass
  | [] => .invalid
  | c :: rest =>
    if c = '.' then .v4
    else if c = ':' then .v6
    else if c = '%' then .invalid
    else classifyIP rest

/-- Model of Go `net.ParseIP`: dispatch on the first special character; an
IPv4 literal is returned in its 16-byte IPv4-in-IPv6 form; any `'%'`
(zone suffix) makes `net.ParseIP` return nil, which the guard on the IPv6
branch reproduces. -/
def goParseIP (s : String) : Option (List Nat) :=
  match classifyIP s.data with
  | .v4 => (parseIPv4Fields s.data 0 0 0 []).map v4InV6
  | .v6 => if s.data.contains '%' then none else parseIPv6 s.data
  | .invalid => none

/-- `isValidIP` from `helpers.go`: `net.ParseIP(ip) != nil`. -/
def isValidIP (ip : String) : Bool := (goParseIP ip).isSome

/-- Go `IP.To4` on the 16-byte addresses `net.ParseIP` produces: the four
low bytes when the address has the IPv4-in-IPv6 prefix, nil otherwise. -/
def ipTo4 (ip : List Nat) : Option (Nat × Nat × Nat × Nat) :=
  match ip with
  | [b0, b1, b2, b3, b4, b5, b6, b7, b8, b9, b10, b11, a, b, c, d] =>
    if b0 = 0 ∧ b1 = 0 ∧ b2 = 0 ∧ b3 = 0 ∧ b4 = 0 ∧ b5 = 0 ∧ b6 = 0 ∧ b7 = 0 ∧
       b8 = 0 ∧ b9 = 0 ∧ b10 = 0xff ∧ b11 = 0xff then
      some (a, b, c, d)
    else none
  | _ => none

/-- Decimal rendering of one IPv4 octet (Go `uitoa`, used by `IP.String`). -/
def uitoa (n : Nat) : String := toString n

/-- One lowercase hex digit, as `fmt.Sprintf("%x", …)` renders a nibble. -/
def hexDigit (n : Nat) : String := String.mk [Nat.digitChar n]

/-- `reverseDNSName` from `helpers.go`.  An unparsable input yields `""`.
For an address with `To4() != nil`, Go splits `parsedIP.String()` (which is
the dotted-decimal form of the four octets; `uitoa` never emits `'.'`, so
the split returns exactly the four octet strings) and joins them reversed
with the `in-addr.arpa.` suffix.  Otherwise the 16 bytes of `To16()` (the
address itself) are emitted from the last byte to the first, low nibble
before high nibble, dot-separated, with the `ip6.arpa.` suffix. -/
def reverseDNSName (ip : String) : String :=
  match goParseIP ip with
  | none => ""
  | some parsedIP =>
    match ipTo4 parsedIP with
    | some (a, b, c, d) =>
      String.intercalate "." [uitoa d, uitoa c, uitoa b, uitoa a] ++ ".in-addr.arpa."
    | none =>
      let nibbles := parsedIP.reverse.flatMap (fun byte => [hexDigit (byte % 16), hexDigit (byte / 16 % 16)])
      String.intercalate "." nibbles ++ ".ip6.arpa."

/-! ## Host/port extraction (`helpers.go`, model of Go `net.SplitHostPort`) -/

/-- Index of the first occurrence of `c`, Go `bytealg.IndexByteString`. -/
def firstIndexChar (l : List Char) (c : Char) : Option Nat := l.indexOf? c

/-- Index of the last occurrence of `c`, Go `bytealg.LastIndexByteString`. -/
def lastIndexChar (l : List Char) (c : Char) : Option Nat :=
  (l.reverse.indexOf? c).map (fun j => l.length - 1 - j)

/-- Model of Go `net.SplitHostPort`: the port starts after the last colon;
a leading `'['` introduces a bracketed host whose `']'` must sit directly
before that colon; stray brackets or extra colons in the host are errors
(`none`). -/
def splitHostPort (hostport : String) : Option (String × String) :=
  let l := hostport.data
  match lastIndexChar l ':' with
  | none => none
  | some i =>
    match l with
    | '[' :: _ =>
      match firstIndexChar l ']' with
      | none => none
      | some e =>
        if e + 1 = l.length then none
        else if e + 1 ≠ i then none
        else if (l.drop 1).contains '[' then none
        else if (l.drop (e + 1)).contains ']' then none
        else some (⟨(l.drop 1).take (e - 1)⟩, ⟨l.drop (i + 1)⟩)
    | _ =>
      let host := l.take i
      if host.contains ':' then none
      else if l.contains '[' then none
      else if l.contains ']' then none
      else some (⟨host⟩, ⟨l.drop (i + 1)⟩)

/-- `extractHost` from `helpers.go`: on a split error the whole address is
assumed to be a bare host. -/
def extractHost (address : String) : String :=
  match splitHostPort address with
  | none => address
  | some (host, _) => host

/-- `extractPort` from `helpers.go`: on a split error the default DNS port
`"53"` is used. -/
def extractPort (address : String) : String :=
  match splitHostPort address with
  | none => "53"
  | some (_, port) => port

/-! ## Data model (`webhook_payload.go`, the pointer-snapshot variant the
event handlers compile against)

Only the fields the orchestration core reads are modelled; `id`, `zone`,
`status` and the other informational fields never influence the compiled
scripts, the locks or the control flow of the handlers. -/

/-- `RecordData`: the current state of the record (`payload.Data`), also the
shape `snapshotToRecordData` converts snapshots into for the PTR handler. -/
structure RecordData where
  name : String
  fqdn : String
  rtype : String
  value : String
  ttl : Option Int
  disablePTR : Bool
deriving DecidableEq

/-- `Snapshot`: one prechange/postchange record snapshot. -/
structure Snapshot where
  name : String
  fqdn : String
  rtype : String
  value : String
  ttl : Option Int
  disablePTR : Bool
deriving DecidableEq

/-- `Snapshots`: the two nullable snapshot pointers, as the handlers
dereference them (`payload.Snapshots.PreChange == nil`,
`payload.Snapshots.PostChange == nil`). -/
structure Snapshots where
  prechange : Option Snapshot
  postchange : Option Snapshot
deriving DecidableEq

/-- `WebhookPayload` (the fields the handlers read; `Snapshots` itself is a
nullable pointer). -/
structure WebhookPayload where
  event : String
  username : String
  requestId : String
  data : RecordData
  snapshots : Option Snapshots
deriving DecidableEq

/-- `Config` (the one field the orchestration core reads). -/
structure Config where
  bindServerAddress : String
deriving DecidableEq

/-- `snapshotToRecordData` from `helpers.go`: nil maps to nil, otherwise the
snapshot's fields are copied across. -/
def snapshotToRecordData : Option Snapshot → Option RecordData
  | none => none
  | some s => some ⟨s.name, s.fqdn, s.rtype, s.value, s.ttl, s.disablePTR⟩

/-! ## PTR synchronization (`ptr_handler.go`)

`handlePTRUpdate` spawns a goroutine; its observable behaviour is the
ordered list of PTR-name locks it acquires, the script it hands to
`ExecuteNSUpdate` (or `none` when it returns before executing), and which
logging/return path it takes. -/

/-- Which exit path the PTR goroutine takes. -/
inductive PTROutcome where
  | skipInvalidIP
  | nilSnapshotData
  | emptyScript
  | issued
deriving DecidableEq

/-- Observable behaviour of one `handlePTRUpdate` goroutine. -/
structure PTRTask where
  locks : List String
  script : Option String
  outcome : PTROutcome
deriving DecidableEq

/-- The IP string a side contributes: `preData.Value` / `postData.Value`
when the pointer is non-nil, `""` otherwise. -/
def sideIP : Option RecordData → String
  | some d => d.value
  | none => ""

/-- The lock-acquisition order of the PTR goroutine: the old PTR name
first (when non-empty), then the new PTR name (when non-empty and different
from the old). -/
def ptrLockOrder (oldPTRName newPTRName : String) : List String :=
  (if oldPTRName ≠ "" then [oldPTRName] else []) ++
  (if newPTRName ≠ "" ∧ newPTRName ≠ oldPTRName then [newPTRName] else [])

/-- `handlePTRUpdate` from `ptr_handler.go`.  If neither side's value is a
valid IP the goroutine only logs a skip.  Otherwise it derives the PTR names
for the valid sides, acquires the old-PTR-name lock first and then the
new-PTR-name lock when it differs, builds the event's script (`created`:
add, needs `postData`; `deleted`: delete, needs `preData`; `updated`:
delete-part then add-part, each only for a non-empty name with its data
present), returns after a warning when the needed data pointer is nil or
the built script is empty, and otherwise executes the script. -/
def handlePTRUpdate (event : String) (preData postData : Option RecordData)
    (config : Config) : PTRTask :=
  let oldIP := sideIP preData
  let newIP := sideIP postData
  let oldIPValid := isValidIP oldIP
  let newIPValid := isValidIP newIP
  if !oldIPValid && !newIPValid then
    { locks := [], script := none, outcome := .skipInvalidIP }
  else
    let oldPTRName := if oldIPValid then reverseDNSName oldIP else ""
    let newPTRName := if newIPValid then reverseDNSName newIP else ""
    let locks := ptrLockOrder oldPTRName newPTRName
    let host := extractHost config.bindServerAddress
    let port := extractPort config.bindServerAddress
    let scriptOpt : Option String :=
      if event = "created" then
        match postData with
        | some post => some (ConstructPTRUpdateScript host port newPTRName post.fqdn "created" 300)
        | none => none
      else if event = "deleted" then
        match preData with
        | some pre => some (ConstructPTRUpdateScript host port oldPTRName pre.fqdn "deleted" 0)
        | none => none
      else if event = "updated" then
        let deletePart :=
          match preData with
          | some pre =>
            if oldPTRName ≠ "" then ConstructPTRUpdateScript host port oldPTRName pre.fqdn "deleted" 0
            else ""
          | none => ""
        let createPart :=
          match postData with
          | some post =>
            if newPTRName ≠ "" then ConstructPTRUpdateScript host port newPTRName post.fqdn "created" 300
            else ""
          | none => ""
        some (deletePart ++ createPart)
      else some ""
    match scriptOpt with
    | none => { locks := locks, script := none, outcome := .nilSnapshotData }
    | some s =>
      if s = "" then { locks := locks, script := none, outcome := .emptyScript }
      else { locks := locks, script := some s, outcome := .issued }

/-! ## Event handlers (`event_handlers.go`) -/

/-- Synchronous outcome of an event handler: `badRequest` models
`http.Error(w, …, 400)` followed by `return` (no background task);
`accepted script ptr` models the 200 response, with `script` the nsupdate
script the forward-update goroutine executes and `ptr` the arguments of the
`handlePTRUpdate` invocation, when one is made. -/
inductive HandlerResult where
  | badRequest
  | accepted (script : String) (ptr : Option (String × Option RecordData × Option RecordData))
deriving DecidableEq

/-- The TTL defaulting idiom shared by `handleCreatedEvent` and
`handleUpdatedEvent`: `ttl := 300; if TTL != nil && *TTL > 0 { ttl = *TTL }`. -/
def effectiveTTL : Option Int → Int
  | some t => if t > 0 then t else 300
  | none => 300

/-- The value a created event compiles: adjusted when the record type is
CNAME, verbatim otherwise. -/
def createdValue (d : RecordData) : String :=
  let recordType := goToUpper d.rtype
  if recordType = "CNAME" then adjustCNAMEValue d.value d.fqdn d.name else d.value

/-- The PTR-invocation gate of `handleCreatedEvent`: PTR not disabled and
record type A/AAAA. -/
def createdPTRCall (d : RecordData) : Option (String × Option RecordData × Option RecordData) :=
  let recordType := goToUpper d.rtype
  if !d.disablePTR && (recordType = "A" ∨ recordType = "AAAA") then
    some ("created", (none : Option RecordData), some d)
  else none

/-- `handleCreatedEvent`: no validation; compile the add script from the
current record data, start the update goroutine, invoke the PTR handler for
A/AAAA records with PTR enabled, reply 200. -/
def handleCreatedEvent (config : Config) (payload : WebhookPayload) : HandlerResult :=
  let fqdn := payload.data.fqdn
  let recordType := goToUpper payload.data.rtype
  let script := ConstructNSUpdateScript (extractHost config.bindServerAddress)
    (extractPort config.bindServerAddress) fqdn recordType "" (createdValue payload.data)
    "created" (effectiveTTL payload.data.ttl)
  .accepted script (createdPTRCall payload.data)

/-- The value a deleted event compiles, from the prechange snapshot:
adjusted when the record type is CNAME, verbatim otherwise. -/
def deletedValue (pre : Snapshot) : String :=
  let recordType := goToUpper pre.rtype
  if recordType = "CNAME" then adjustCNAMEValue pre.value pre.fqdn pre.name else pre.value

/-- The PTR-invocation gate of `handleDeletedEvent`: PTR not disabled on
the prechange snapshot and record type A/AAAA. -/
def deletedPTRCall (pre : Snapshot) : Option (String × Option RecordData × Option RecordData) :=
  let recordType := goToUpper pre.rtype
  if !pre.disablePTR && (recordType = "A" ∨ recordType = "AAAA") then
    some ("deleted", snapshotToRecordData (some pre), (none : Option RecordData))
  else none

/-- `handleDeletedEvent`: a nil `Snapshots` or nil `PreChange` is a 400
rejection with no task; otherwise compile the delete script from the
prechange snapshot, start the goroutine, invoke the PTR handler for A/AAAA
records with PTR enabled on the prechange side, reply 200. -/
def handleDeletedEvent (config : Config) (payload : WebhookPayload) : HandlerResult :=
  match payload.snapshots with
  | none => .badRequest
  | some snapshots =>
    match snapshots.prechange with
    | none => .badRequest
    | some preChange =>
      let fqdn := preChange.fqdn
      let recordType := goToUpper preChange.rtype
      let script := ConstructNSUpdateScript (extractHost config.bindServerAddress)
        (extractPort config.bindServerAddress) fqdn recordType (deletedValue preChange) ""
        "deleted" 0
      .accepted script (deletedPTRCall preChange)

/-- The old value an updated event compiles: `""` when the prechange
snapshot is nil; the prechange value, CNAME-adjusted against the prechange
fqdn and name when the type is CNAME and the value is non-empty. -/
def updatedOldValue (recordType : String) : Option Snapshot → String
  | none => ""
  | some pre =>
    if recordType = "CNAME" ∧ pre.value ≠ "" then adjustCNAMEValue pre.value pre.fqdn pre.name
    else pre.value

/-- The new value an updated event compiles: the postchange value,
CNAME-adjusted against the postchange fqdn and name when the type is
CNAME. -/
def updatedNewValue (recordType : String) (post : Snapshot) : String :=
  if recordType = "CNAME" then adjustCNAMEValue post.value post.fqdn post.name
  else post.value

/-- The PTR-invocation gate of `handleUpdatedEvent`: for A/AAAA records,
invoke `handlePTRUpdate` when the disable-PTR flag changed between the
snapshots or the postchange state has PTR enabled. -/
def updatedPTRCall (preChange : Option Snapshot) (postChange : Snapshot) :
    Option (String × Option RecordData × Option RecordData) :=
  let recordType := goToUpper postChange.rtype
  let preData := snapshotToRecordData preChange
  let postData := snapshotToRecordData (some postChange)
  if recordType = "A" ∨ recordType = "AAAA" then
    let preDisablePTR := match preData with | some d => d.disablePTR | none => false
    let postDisablePTR := postChange.disablePTR
    if preDisablePTR ≠ postDisablePTR ∨ ¬postDisablePTR then
      some ("updated", preData, postData)
    else none
  else none

/-- `handleUpdatedEvent`: a nil `Snapshots`, nil `PostChange` or empty
postchange fqdn is a 400 rejection with no task; otherwise compile the
delete-then-add script (old value from the prechange snapshot, `""` when it
is nil), start the goroutine, run the PTR gate, reply 200. -/
def handleUpdatedEvent (config : Config) (payload : WebhookPayload) : HandlerResult :=
  match payload.snapshots with
  | none => .badRequest
  | some snapshots =>
    match snapshots.postchange with
    | none => .badRequest
    | some postChange =>
      if postChange.fqdn = "" then .badRequest
      else
        let recordType := goToUpper postChange.rtype
        let script := ConstructNSUpdateScript (extractHost config.bindServerAddress)
          (extractPort config.bindServerAddress) postChange.fqdn recordType
          (updatedOldValue recordType snapshots.prechange)
          (updatedNewValue recordType postChange)
          "updated" (effectiveTTL postChange.ttl)
        .accepted script (updatedPTRCall snapshots.prechange postChange)

/-! ## Two concurrent PTR tasks and their lock acquisition order

`RecordLockManager.AcquireLock` (`concurrency.go`) hands every task the
`sync.Mutex` stored under the requested name, blocking while another task
holds it.  A PTR goroutine acquires the names in its `PTRTask.locks` list in
order and releases only when it finishes (`defer`), so its interaction with
a second goroutine is the classic ordered-lock-acquisition system: a task
may take its next lock exactly when the other task does not hold it. -/

/-- Progress of two tasks: how many locks of its list each has acquired. -/
structure TwoTaskState where
  a1 : Nat
  a2 : Nat
deriving DecidableEq

/-- `heldBy L a x`: a task that has acquired the first `a` locks of its
list `L` currently holds the name `x`. -/
def heldBy (L : List String) (a : Nat) (x : String) : Prop :=
  ∃ j, j < a ∧ L[j]? = some x

/-- One scheduling step: a task acquires its next lock, which must not be
held by the other task (`sync.Mutex.Lock` blocks otherwise). -/
inductive LockStep (L1 L2 : List String) : TwoTaskState → TwoTaskState → Prop where
  | acquire1 (s : TwoTaskState) (x : String) :
      L1[s.a1]? = some x → ¬ heldBy L2 s.a2 x → LockStep L1 L2 s ⟨s.a1 + 1, s.a2⟩
  | acquire2 (s : TwoTaskState) (x : String) :
      L2[s.a2]? = some x → ¬ heldBy L1 s.a1 x → LockStep L1 L2 s ⟨s.a1, s.a2 + 1⟩

/-- States reachable from the start (no locks held) by interleaving. -/
inductive LockReachable (L1 L2 : List String) : TwoTaskState → Prop where
  | init : LockReachable L1 L2 ⟨0, 0⟩
  | step {s s' : TwoTaskState} :
      LockReachable L1 L2 s → LockStep L1 L2 s s' → LockReachable L1 L2 s'

/-- Circular wait: each task's next lock is held by the other task, so
neither `sync.Mutex.Lock` call can ever return. -/
def Deadlocked (L1 L2 : List String) (s : TwoTaskState) : Prop :=
  (∃ x, L1[s.a1]? = some x ∧ heldBy L2 s.a2 x) ∧
  (∃ y, L2[s.a2]? = some y ∧ heldBy L1 s.a1 y)

/-! ## Concrete fixtures used by witnesses and counterexamples -/

/-- A configuration with the default bind server address. -/
def sampleConfig : Config := ⟨"127.0.0.1:53"⟩

/-- A current-record snapshot of an A record. -/
def sampleData : RecordData := ⟨"test1", "test1.example.com.", "A", "10.0.0.2", none, false⟩

/-- A prechange snapshot (old value `10.0.0.1`). -/
def samplePre : Snapshot := ⟨"test1", "test1.example.com.", "A", "10.0.0.1", none, false⟩

/-- A postchange snapshot (new value `10.0.0.2`). -/
def samplePost : Snapshot := ⟨"test1", "test1.example.com.", "A", "10.0.0.2", none, false⟩

/-- A completely empty (but present) snapshot. -/
def emptySnapshot : Snapshot := ⟨"", "", "", "", none, false⟩

/-- An updated-event payload with both snapshots present. -/
def sampleUpdatedPayload : WebhookPayload :=
  ⟨"updated", "netbox", "req-1", sampleData, some ⟨some samplePre, some samplePost⟩⟩

/-! ## Script-shape lemmas for `ConstructNSUpdateScript` -/

/-- The `created` branch of the script compiler, with its own TTL default. -/
theorem construct_created_eq (host port fqdn recordType oldValue newValue : String) (ttl : Int) :
    ConstructNSUpdateScript host port fqdn recordType oldValue newValue "created" ttl =
      serverLine host port ++ updateAddLine fqdn (if ttl ≤ 0 then 300 else ttl) recordType newValue ++
        "send\n" := by
  unfold ConstructNSUpdateScript
  rw [if_pos rfl]

/-- The `deleted` branch of the script compiler: a single delete line. -/
theorem construct_deleted_eq (host port fqdn recordType oldValue newValue : String) (ttl : Int) :
    ConstructNSUpdateScript host port fqdn recordType oldValue newValue "deleted" ttl =
      serverLine host port ++ updateDeleteLine fqdn recordType oldValue ++ "send\n" := by
  unfold ConstructNSUpdateScript
  rw [if_neg (by decide), if_pos rfl]

/-- The `updated` branch of the script compiler: always a delete line first
and an add line second. -/
theorem construct_updated_eq (host port fqdn recordType oldValue newValue : String) (ttl : Int) :
    ConstructNSUpdateScript host port fqdn recordType oldValue newValue "updated" ttl =
      serverLine host port ++
        (updateDeleteLine fqdn recordType oldValue ++ updateAddLine fqdn ttl recordType newValue) ++
        "send\n" := by
  unfold ConstructNSUpdateScript
  rw [if_neg (by decide), if_neg (by decide), if_pos rfl]

/-- C1 (claim theorem). For every Updated event that passes the handler's
validation (snapshots and postchange present, postchange fqdn non-empty),
the compiled forward plan is the server line, then exactly a delete of
`(fqdn, recordType, normalized old value)`, then an add of
`(fqdn, effective TTL, recordType, normalized new value)`, then `send` —
with no condition on the old and new values being different. -/
theorem c1_updated_plan_delete_then_add (config : Config) (payload : WebhookPayload)
    (snapshots : Snapshots) (postChange : Snapshot)
    (hs : payload.snapshots = some snapshots)
    (hp : snapshots.postchange = some postChange)
    (hf : postChange.fqdn ≠ "") :
    handleUpdatedEvent config payload =
      .accepted
        (serverLine (extractHost config.bindServerAddress) (extractPort config.bindServerAddress) ++
          (updateDeleteLine postChange.fqdn (goToUpper postChange.rtype)
            (updatedOldValue (goToUpper postChange.rtype) snapshots.prechange) ++
          updateAddLine postChange.fqdn (effectiveTTL postChange.ttl)
            (goToUpper postChange.rtype) (updatedNewValue (goToUpper postChange.rtype) postChange)) ++
          "send\n")
        (updatedPTRCall snapshots.prechange postChange) := by
  simp only [handleUpdatedEvent, hs, hp]
  rw [if_neg hf, construct_updated_eq]

/-- Witness for C1 at a concrete updated payload. -/
theorem c1_witness :
    handleUpdatedEvent sampleConfig sampleUpdatedPayload =
      .accepted
        (serverLine (extractHost sampleConfig.bindServerAddress)
            (extractPort sampleConfig.bindServerAddress) ++
          (updateDeleteLine samplePost.fqdn (goToUpper samplePost.rtype)
            (updatedOldValue (goToUpper samplePost.rtype) (some samplePre)) ++
          updateAddLine samplePost.fqdn (effectiveTTL samplePost.ttl)
            (goToUpper samplePost.rtype) (updatedNewValue (goToUpper samplePost.rtype) samplePost)) ++
          "send\n")
        (updatedPTRCall (some samplePre) samplePost) :=
  c1_updated_plan_delete_then_add sampleConfig sampleUpdatedPayload
    ⟨some samplePre, some samplePost⟩ samplePost rfl rfl (by decide)

/-- C2 (claim theorem). For every Deleted event that passes validation, the
forward plan is the server line, exactly one delete operation taking fqdn,
record type and value from the prechange snapshot, and `send`; moreover the
handler's result does not depend on the payload's current `data` record at
all. -/
theorem c2_deleted_plan_from_prechange (config : Config) (payload : WebhookPayload)
    (snapshots : Snapshots) (preChange : Snapshot)
    (hs : payload.snapshots = some snapshots)
    (hp : snapshots.prechange = some preChange) :
    handleDeletedEvent config payload =
      .accepted
        (serverLine (extractHost config.bindServerAddress) (extractPort config.bindServerAddress) ++
          updateDeleteLine preChange.fqdn (goToUpper preChange.rtype) (deletedValue preChange) ++
          "send\n")
        (deletedPTRCall preChange) ∧
    ∀ d : RecordData, handleDeletedEvent config { payload with data := d } =
      handleDeletedEvent config payload := by
  constructor
  · simp only [handleDeletedEvent, hs, hp]
    rw [construct_deleted_eq]
  · intro d
    simp only [handleDeletedEvent]

/-- Witness for C2 at a concrete deleted payload. -/
theorem c2_witness :
    handleDeletedEvent sampleConfig ⟨"deleted", "netbox", "req-2", sampleData, some ⟨some samplePre, none⟩⟩ =
      .accepted
        (serverLine (extractHost sampleConfig.bindServerAddress)
            (extractPort sampleConfig.bindServerAddress) ++
          updateDeleteLine samplePre.fqdn (goToUpper samplePre.rtype) (deletedValue samplePre) ++
          "send\n")
        (deletedPTRCall samplePre) ∧
    ∀ d : RecordData,
      handleDeletedEvent sampleConfig ⟨"deleted", "netbox", "req-2", d, some ⟨some samplePre, none⟩⟩ =
        handleDeletedEvent sampleConfig ⟨"deleted", "netbox", "req-2", sampleData, some ⟨some samplePre, none⟩⟩ :=
  c2_deleted_plan_from_prechange sampleConfig
    ⟨"deleted", "netbox", "req-2", sampleData, some ⟨some samplePre, none⟩⟩
    ⟨some samplePre, none⟩ samplePre rfl rfl

/-- C3 (counterexample). An Updated event with an absent prechange snapshot
does not compile to an add-only plan: the delete operation is still
emitted, with the empty string as its value (`update delete <fqdn> <type> `),
so the script differs from the add-only script the claim describes. -/
theorem c3_counterexample :
    handleUpdatedEvent sampleConfig
        ⟨"updated", "netbox", "req-3", sampleData, some ⟨none, some samplePost⟩⟩ =
      .accepted
        "server 127.0.0.1 53\nupdate delete test1.example.com. A \nupdate add test1.example.com. 300 IN A 10.0.0.2\nsend\n"
        (some ("updated", none, some ⟨"test1", "test1.example.com.", "A", "10.0.0.2", none, false⟩)) ∧
    "server 127.0.0.1 53\nupdate delete test1.example.com. A \nupdate add test1.example.com. 300 IN A 10.0.0.2\nsend\n" ≠
      "server 127.0.0.1 53\nupdate add test1.example.com. 300 IN A 10.0.0.2\nsend\n" := by
  exact ⟨by decide, by decide⟩

/-- C3 (amended claim theorem). For every valid Updated event whose
prechange snapshot is absent, the old value is taken to be the empty
string: the plan still contains the delete operation, now of
`(fqdn, recordType, "")`, followed by the add of the new value. -/
theorem c3_updated_absent_prechange_keeps_delete (config : Config) (payload : WebhookPayload)
    (snapshots : Snapshots) (postChange : Snapshot)
    (hs : payload.snapshots = some snapshots)
    (hpre : snapshots.prechange = none)
    (hp : snapshots.postchange = some postChange)
    (hf : postChange.fqdn ≠ "") :
    handleUpdatedEvent config payload =
      .accepted
        (serverLine (extractHost config.bindServerAddress) (extractPort config.bindServerAddress) ++
          (updateDeleteLine postChange.fqdn (goToUpper postChange.rtype) "" ++
          updateAddLine postChange.fqdn (effectiveTTL postChange.ttl)
            (goToUpper postChange.rtype) (updatedNewValue (goToUpper postChange.rtype) postChange)) ++
          "send\n")
        (updatedPTRCall none postChange) := by
  simp only [handleUpdatedEvent, hs, hp, hpre]
  rw [if_neg hf, construct_updated_eq]
  rfl

/-- Witness for the amended C3 at a concrete payload with no prechange. -/
theorem c3_witness :
    handleUpdatedEvent sampleConfig
        ⟨"updated", "netbox", "req-3", sampleData, some ⟨none, some samplePost⟩⟩ =
      .accepted
        (serverLine (extractHost sampleConfig.bindServerAddress)
            (extractPort sampleConfig.bindServerAddress) ++
          (updateDeleteLine samplePost.fqdn (goToUpper samplePost.rtype) "" ++
          updateAddLine samplePost.fqdn (effectiveTTL samplePost.ttl)
            (goToUpper samplePost.rtype) (updatedNewValue (goToUpper samplePost.rtype) samplePost)) ++
          "send\n")
        (updatedPTRCall none samplePost) :=
  c3_updated_absent_prechange_keeps_delete sampleConfig
    ⟨"updated", "netbox", "req-3", sampleData, some ⟨none, some samplePost⟩⟩
    ⟨none, some samplePost⟩ samplePost rfl rfl rfl (by decide)

/-- C4 (amended claim theorem). A Deleted event whose prechange snapshot is
absent — the `snapshots` object itself missing or its `prechange` null — is
rejected with HTTP 400 and no background task is started. -/
theorem c4_absent_prechange_rejected (config : Config) (payload : WebhookPayload)
    (h : payload.snapshots = none ∨
      ∃ snapshots, payload.snapshots = some snapshots ∧ snapshots.prechange = none) :
    handleDeletedEvent config payload = .badRequest := by
  rcases h with h | ⟨snapshots, hs, hp⟩
  · simp only [handleDeletedEvent, h]
  · simp only [handleDeletedEvent, hs, hp]

/-- Witness for the amended C4: a payload with no snapshots object. -/
theorem c4_witness :
    handleDeletedEvent sampleConfig ⟨"deleted", "netbox", "req-4", sampleData, none⟩ =
      .badRequest :=
  c4_absent_prechange_rejected sampleConfig
    ⟨"deleted", "netbox", "req-4", sampleData, none⟩ (Or.inl rfl)

/-- C4 (counterexample). A Deleted event whose prechange snapshot is
present but empty (every field the empty string) is not rejected: the
handler accepts it and starts the background task with a delete compiled
from the empty fields. -/
theorem c4_counterexample :
    handleDeletedEvent sampleConfig
        ⟨"deleted", "netbox", "req-5", sampleData, some ⟨some emptySnapshot, none⟩⟩ =
      .accepted "server 127.0.0.1 53\nupdate delete   \nsend\n" none ∧
    handleDeletedEvent sampleConfig
        ⟨"deleted", "netbox", "req-5", sampleData, some ⟨some emptySnapshot, none⟩⟩ ≠
      .badRequest := by
  exact ⟨by decide, by decide⟩

/-- The effective TTL is always positive, so the compiler's own
`if ttl <= 0 { ttl = 300 }` in the `created` branch never rewrites it. -/
theorem effectiveTTL_pos (t : Option Int) : 0 < effectiveTTL t := by
  cases t with
  | none => decide
  | some t =>
    by_cases h : t > 0
    · simp [effectiveTTL, h]
    · simp [effectiveTTL, h]

/-- C7 (claim theorem). Every Created event is accepted and compiles to a
single add operation whose TTL is the effective TTL: the provided TTL when
present and strictly positive, and 300 when the TTL is absent, zero or
negative (in particular a provided TTL of 120 stays 120). -/
theorem c7_created_ttl_policy :
    (∀ (config : Config) (payload : WebhookPayload),
      handleCreatedEvent config payload =
        .accepted
          (serverLine (extractHost config.bindServerAddress) (extractPort config.bindServerAddress) ++
            updateAddLine payload.data.fqdn (effectiveTTL payload.data.ttl)
              (goToUpper payload.data.rtype) (createdValue payload.data) ++
            "send\n")
          (createdPTRCall payload.data)) ∧
    (∀ t : Int, 0 < t → effectiveTTL (some t) = t) ∧
    (∀ t : Int, t ≤ 0 → effectiveTTL (some t) = 300) ∧
    effectiveTTL none = 300 ∧
    effectiveTTL (some 120) = 120 := by
  refine ⟨?_, ?_, ?_, rfl, rfl⟩
  · intro config payload
    simp only [handleCreatedEvent]
    rw [construct_created_eq, if_neg (not_le.mpr (effectiveTTL_pos payload.data.ttl))]
  · intro t ht
    simp [effectiveTTL, ht]
  · intro t ht
    simp [effectiveTTL, not_lt.mpr ht]

/-- Witness for C7: the policy applied at TTL 120, TTL 0 and a concrete
created payload. -/
theorem c7_witness :
    (0 : Int) < 120 ∧ effectiveTTL (some 120) = 120 ∧
    (0 : Int) ≤ 0 ∧ effectiveTTL (some 0) = 300 ∧
    handleCreatedEvent sampleConfig ⟨"created", "netbox", "req-6", sampleData, none⟩ =
      .accepted
        (serverLine (extractHost sampleConfig.bindServerAddress)
            (extractPort sampleConfig.bindServerAddress) ++
          updateAddLine sampleData.fqdn (effectiveTTL sampleData.ttl)
            (goToUpper sampleData.rtype) (createdValue sampleData) ++
          "send\n")
        (createdPTRCall sampleData) :=
  ⟨by decide, c7_created_ttl_policy.2.1 120 (by decide),
   le_refl 0, c7_created_ttl_policy.2.2.1 0 (le_refl 0),
   c7_created_ttl_policy.1 sampleConfig ⟨"created", "netbox", "req-6", sampleData, none⟩⟩

/-- C8 (claim theorem). A PTR-update invocation in which neither side's
value parses as an IP address does nothing but log the skip: no locks are
acquired and no script is handed to the updater. -/
theorem c8_ptr_skip_invalid (event : String) (preData postData : Option RecordData)
    (config : Config)
    (h1 : isValidIP (sideIP preData) = false)
    (h2 : isValidIP (sideIP postData) = false) :
    handlePTRUpdate event preData postData config =
      { locks := [], script := none, outcome := .skipInvalidIP } := by
  simp only [handlePTRUpdate, h1, h2]
  rfl

/-- Witness for C8: a concrete updated event whose old value is not an IP
and whose new side is absent. -/
theorem c8_witness :
    isValidIP (sideIP (some ⟨"t", "t.example.com.", "A", "not-an-ip", none, false⟩)) = false ∧
    isValidIP (sideIP (none : Option RecordData)) = false ∧
    handlePTRUpdate "updated" (some ⟨"t", "t.example.com.", "A", "not-an-ip", none, false⟩)
        none sampleConfig =
      { locks := [], script := none, outcome := .skipInvalidIP } :=
  ⟨by decide, by decide,
   c8_ptr_skip_invalid "updated" (some ⟨"t", "t.example.com.", "A", "not-an-ip", none, false⟩)
     none sampleConfig (by decide) (by decide)⟩

/-- C5 (counterexample). `"::ffff:10.5.199.71"` is a parsable IPv6 literal
(it contains `':'` and `net.ParseIP` accepts it), yet the resolver maps it
to the `in-addr.arpa.` name of its embedded IPv4 address, not to the
32-nibble `ip6.arpa.` name the claim prescribes for IPv6 literals. -/
theorem c5_counterexample :
    "::ffff:10.5.199.71".data.contains ':' = true ∧
    (goParseIP "::ffff:10.5.199.71").isSome = true ∧
    reverseDNSName "::ffff:10.5.199.71" = "71.199.5.10.in-addr.arpa." ∧
    reverseDNSName "::ffff:10.5.199.71" ≠
      "7.4.7.c.5.0.a.0.f.f.f.f.0.0.0.0.0.0.0.0.0.0.0.0.0.0.0.0.0.0.0.0.ip6.arpa." := by
  exact ⟨by decide, by decide, by decide, by decide⟩

/-- C5 (amended claim theorem). For every string input: when the parsed
address carries the IPv4-in-IPv6 prefix (`To4() != nil`, i.e. the input was
a dotted-decimal IPv4 literal or an IPv4-mapped IPv6 literal), the result
is the reversed dotted-decimal octets with the `.in-addr.arpa.` suffix;
when the parsed address is not IPv4-mapped, the result is the 16 bytes
emitted from last byte to first, low nibble before high nibble,
dot-separated, with the `.ip6.arpa.` suffix; and when the input does not
parse, the result is the empty string (the "not an IP" outcome), never a
crash.  The concrete conjuncts instantiate the spec's examples. -/
theorem c5_reverse_name_resolver :
    (∀ (s : String) (ip : List Nat) (a b c d : Nat),
      goParseIP s = some ip → ipTo4 ip = some (a, b, c, d) →
      reverseDNSName s =
        uitoa d ++ "." ++ uitoa c ++ "." ++ uitoa b ++ "." ++ uitoa a ++ ".in-addr.arpa.") ∧
    (∀ (s : String) (ip : List Nat),
      goParseIP s = some ip → ipTo4 ip = none →
      reverseDNSName s =
        String.intercalate "."
          (ip.reverse.flatMap (fun byte => [hexDigit (byte % 16), hexDigit (byte / 16 % 16)])) ++
          ".ip6.arpa.") ∧
    (∀ s : String, goParseIP s = none → reverseDNSName s = "") ∧
    reverseDNSName "10.5.199.71" = "71.199.5.10.in-addr.arpa." ∧
    reverseDNSName "not-an-ip" = "" := by
  refine ⟨?_, ?_, ?_, by decide, by decide⟩
  · intro s ip a b c d hparse h4
    simp only [reverseDNSName, hparse, h4]
    simp [String.intercalate, String.intercalate.go, String.append_assoc]
  · intro s ip hparse h4
    simp only [reverseDNSName, hparse, h4]
  · intro s hparse
    simp only [reverseDNSName, hparse]

/-- Witness for the amended C5, applying each quantified conjunct at a
concrete input: the IPv4 example, an IPv6 example, and a non-IP string. -/
theorem c5_witness :
    goParseIP "10.5.199.71" = some [0, 0, 0, 0, 0, 0, 0, 0, 0, 0, 0xff, 0xff, 10, 5, 199, 71] ∧
    reverseDNSName "10.5.199.71" =
      uitoa 71 ++ "." ++ uitoa 199 ++ "." ++ uitoa 5 ++ "." ++ uitoa 10 ++ ".in-addr.arpa." ∧
    goParseIP "not-an-ip" = none ∧
    reverseDNSName "not-an-ip" = "" :=
  ⟨by decide,
   c5_reverse_name_resolver.1 "10.5.199.71" [0, 0, 0, 0, 0, 0, 0, 0, 0, 0, 0xff, 0xff, 10, 5, 199, 71]
     10 5 199 71 (by decide) (by decide),
   by decide,
   c5_reverse_name_resolver.2.2.1 "not-an-ip" (by decide)⟩

/-- C6 (counterexample). The value `" host."` ends with `"."`, yet it is
not passed through unchanged: `adjustCNAMEValue` first trims surrounding
whitespace, so the result is `"host."`, not `" host."`. -/
theorem c6_counterexample :
    adjustCNAMEValue " host." "alias.example.com." "alias" = "host." ∧
    "host." ≠ " host." := by
  exact ⟨by decide, by decide⟩

/-- C6 (amended claim theorem). The value is first trimmed of surrounding
whitespace.  A trimmed value ending with `"."` is passed through (trimmed
but otherwise unchanged).  Otherwise, when the derived zone name is
non-empty the value is qualified by appending `"." + zone + "."`, where the
zone is the fqdn (sans one trailing dot) with the owner-name prefix
stripped when that prefix can be located and the fqdn itself when it
cannot; when the derived zone name is empty the value is returned
unqualified.  The concrete conjunct instantiates the spec's example. -/
theorem c6_cname_qualification :
    adjustCNAMEValue "host" "alias.example.com." "alias" = "host.example.com." ∧
    (∀ value fqdn recordName : String, goHasSuffixDot (goTrimSpace value) = true →
      adjustCNAMEValue value fqdn recordName = goTrimSpace value) ∧
    (∀ value fqdn recordName : String, goHasSuffixDot (goTrimSpace value) = false →
      getZoneNameFromFQDN fqdn recordName ≠ "" →
      adjustCNAMEValue value fqdn recordName =
        goTrimSpace value ++ "." ++ getZoneNameFromFQDN fqdn recordName ++ ".") ∧
    (∀ value fqdn recordName : String, goHasSuffixDot (goTrimSpace value) = false →
      getZoneNameFromFQDN fqdn recordName = "" →
      adjustCNAMEValue value fqdn recordName = goTrimSpace value) ∧
    (∀ fqdn recordName : String, goTrimSuffixDot recordName ≠ "" →
      ((goTrimSuffixDot recordName).data ++ ['.']).isPrefixOf (goTrimSuffixDot fqdn).data = true →
      getZoneNameFromFQDN fqdn recordName =
        ⟨(goTrimSuffixDot fqdn).data.drop ((goTrimSuffixDot recordName).data.length + 1)⟩) ∧
    (∀ fqdn recordName : String, goTrimSuffixDot recordName ≠ "" →
      ((goTrimSuffixDot recordName).data ++ ['.']).isPrefixOf (goTrimSuffixDot fqdn).data = false →
      getZoneNameFromFQDN fqdn recordName = goTrimSuffixDot fqdn) := by
  refine ⟨by decide, ?_, ?_, ?_, ?_, ?_⟩
  · intro value fqdn recordName h
    simp [adjustCNAMEValue, h]
  · intro value fqdn recordName h hz
    simp [adjustCNAMEValue, h, hz]
  · intro value fqdn recordName h hz
    simp [adjustCNAMEValue, h, hz]
  · intro fqdn recordName hn hpre
    simp [getZoneNameFromFQDN, hn, hpre]
  · intro fqdn recordName hn hpre
    simp [getZoneNameFromFQDN, hn, hpre]

/-- Witness for the amended C6: the absolute value `"host."` is passed
through unchanged, and the relative `"host"` is qualified against the zone
stripped of the owner name. -/
theorem c6_witness :
    goHasSuffixDot (goTrimSpace "host.") = true ∧
    adjustCNAMEValue "host." "alias.example.com." "alias" = goTrimSpace "host." ∧
    goHasSuffixDot (goTrimSpace "host") = false ∧
    getZoneNameFromFQDN "alias.example.com." "alias" ≠ "" ∧
    adjustCNAMEValue "host" "alias.example.com." "alias" =
      goTrimSpace "host" ++ "." ++ getZoneNameFromFQDN "alias.example.com." "alias" ++ "." :=
  ⟨by decide,
   c6_cname_qualification.2.1 "host." "alias.example.com." "alias" (by decide),
   by decide, by decide,
   c6_cname_qualification.2.2.1 "host" "alias.example.com." "alias" (by decide) (by decide)⟩

/-! ## Idempotence of the CNAME qualification -/

/-- The head of a `dropWhile` result fails the predicate. -/
theorem dropWhile_head_false {p : Char → Bool} {l : List Char} {a : Char} {t : List Char}
    (h : l.dropWhile p = a :: t) : p a = false := by
  have h2 := List.head?_dropWhile_not p l
  rw [h] at h2
  simpa using h2

/-- `trimRightL` only removes characters from the end. -/
theorem trimRightL_keeps_front (l : List Char) : trimRightL l <+: l := by
  rw [← List.reverse_suffix]
  simpa [trimRightL] using List.dropWhile_suffix (l := l.reverse) isGoSpace

/-- A list whose head (if any) is not whitespace is untouched by
`trimLeftL`. -/
theorem trimLeftL_eq_self {l : List Char}
    (h : ∀ a t, l = a :: t → isGoSpace a = false) : trimLeftL l = l := by
  cases l with
  | nil => rfl
  | cons a t => simp [trimLeftL, List.dropWhile, h a t rfl]

/-- A list whose last character (if any) is not whitespace is untouched by
`trimRightL`. -/
theorem trimRightL_eq_self {l : List Char}
    (h : ∀ c, l.getLast? = some c → isGoSpace c = false) : trimRightL l = l := by
  unfold trimRightL
  have h2 : List.dropWhile isGoSpace l.reverse = l.reverse := by
    apply trimLeftL_eq_self (l := l.reverse)
    intro a t hl
    apply h
    rw [← List.head?_reverse, hl]
    rfl
  rw [h2, List.reverse_reverse]

/-- The head of a trimmed string fails `isGoSpace`: `trimRightL` keeps a
prefix of the `trimLeftL` result, whose head already failed it. -/
theorem goTrimSpace_head_false (v : String) {a : Char} {t : List Char}
    (h : (goTrimSpace v).data = a :: t) : isGoSpace a = false := by
  have hpre := trimRightL_keeps_front (trimLeftL v.data)
  rw [show (goTrimSpace v).data = trimRightL (trimLeftL v.data) from rfl] at h
  rw [h] at hpre
  obtain ⟨r, hr⟩ := hpre
  exact dropWhile_head_false (l := v.data) hr.symm

/-- The last character of a trimmed string fails `isGoSpace`. -/
theorem goTrimSpace_last_false (v : String) {c : Char}
    (h : (goTrimSpace v).data.getLast? = some c) : isGoSpace c = false := by
  have h2 : (trimRightL (trimLeftL v.data)).reverse.head? = some c := by
    rw [List.head?_reverse]
    exact h
  rw [show (trimRightL (trimLeftL v.data)).reverse
        = (trimLeftL v.data).reverse.dropWhile isGoSpace from by
      simp [trimRightL]] at h2
  have h3 := List.head?_dropWhile_not isGoSpace (trimLeftL v.data).reverse
  rw [h2] at h3
  exact h3

/-- Trimming is idempotent. -/
theorem goTrimSpace_idem (v : String) : goTrimSpace (goTrimSpace v) = goTrimSpace v := by
  have hl : trimLeftL (goTrimSpace v).data = (goTrimSpace v).data :=
    trimLeftL_eq_self (fun a t h => goTrimSpace_head_false v h)
  have hr : trimRightL (goTrimSpace v).data = (goTrimSpace v).data :=
    trimRightL_eq_self (fun c h => goTrimSpace_last_false v h)
  show (⟨trimRightL (trimLeftL (goTrimSpace v).data)⟩ : String) = goTrimSpace v
  rw [hl, hr]

/-- The character data of the qualified value `w ++ "." ++ z ++ "."`. -/
theorem qualified_data (w z : String) :
    (w ++ "." ++ z ++ ".").data = w.data ++ '.' :: z.data ++ ['.'] := by
  simp [String.data_append]

/-- The character data of the qualified value, grouped to expose the final
dot. -/
theorem qualified_data_concat (w z : String) :
    (w ++ "." ++ z ++ ".").data = (w.data ++ '.' :: z.data) ++ ['.'] := by
  simp [String.data_append]

/-- A qualified value ends with a dot. -/
theorem qualified_hasSuffixDot (w z : String) :
    goHasSuffixDot (w ++ "." ++ z ++ ".") = true := by
  unfold goHasSuffixDot
  rw [qualified_data_concat, List.getLast?_concat]
  decide

/-- Trimming does not disturb a value qualified from an already-trimmed
value: its first character is either the non-space head of the trimmed
value or `'.'`, and its last character is `'.'`. -/
theorem goTrimSpace_qualified (v z : String) :
    goTrimSpace (goTrimSpace v ++ "." ++ z ++ ".") = goTrimSpace v ++ "." ++ z ++ "." := by
  have hdata := qualified_data (goTrimSpace v) z
  have hlast : (goTrimSpace v ++ "." ++ z ++ ".").data.getLast? = some '.' := by
    rw [qualified_data_concat]
    exact List.getLast?_concat _
  have hl : trimLeftL (goTrimSpace v ++ "." ++ z ++ ".").data =
      (goTrimSpace v ++ "." ++ z ++ ".").data := by
    apply trimLeftL_eq_self
    intro a t h
    rw [hdata] at h
    cases hw : (goTrimSpace v).data with
    | nil =>
      rw [hw] at h
      simp at h
      rw [← h.1]
      decide
    | cons b bt =>
      rw [hw] at h
      simp at h
      rw [← h.1]
      exact goTrimSpace_head_false v hw
  have hr : trimRightL (goTrimSpace v ++ "." ++ z ++ ".").data =
      (goTrimSpace v ++ "." ++ z ++ ".").data := by
    apply trimRightL_eq_self
    intro c h
    rw [hlast] at h
    cases h
    decide
  show (⟨trimRightL (trimLeftL (goTrimSpace v ++ "." ++ z ++ ".").data)⟩ : String) =
    goTrimSpace v ++ "." ++ z ++ "."
  rw [hl, hr]

/-- C10 (claim theorem). `adjustCNAMEValue` is idempotent: re-qualifying an
already-qualified value with the same fqdn and owner name returns it
unchanged. -/
theorem c10_adjust_idempotent (value fqdn recordName : String) :
    adjustCNAMEValue (adjustCNAMEValue value fqdn recordName) fqdn recordName =
      adjustCNAMEValue value fqdn recordName := by
  by_cases h1 : goHasSuffixDot (goTrimSpace value) = true
  · have hfirst : adjustCNAMEValue value fqdn recordName = goTrimSpace value := by
      simp [adjustCNAMEValue, h1]
    rw [hfirst]
    simp [adjustCNAMEValue, goTrimSpace_idem, h1]
  · replace h1 : goHasSuffixDot (goTrimSpace value) = false := by
      simpa using h1
    by_cases h2 : getZoneNameFromFQDN fqdn recordName = ""
    · have hfirst : adjustCNAMEValue value fqdn recordName = goTrimSpace value := by
        simp [adjustCNAMEValue, h1, h2]
      rw [hfirst]
      simp [adjustCNAMEValue, goTrimSpace_idem, h1, h2]
    · have hfirst : adjustCNAMEValue value fqdn recordName =
          goTrimSpace value ++ "." ++ getZoneNameFromFQDN fqdn recordName ++ "." := by
        simp [adjustCNAMEValue, h1, h2]
      rw [hfirst]
      simp [adjustCNAMEValue, goTrimSpace_qualified, qualified_hasSuffixDot]

/-- A successful optional lookup implies the index is in bounds. -/
theorem lt_length_of_lookup {l : List String} {i : Nat} {x : String}
    (h : l[i]? = some x) : i < l.length := by
  by_contra hc
  rw [List.getElem?_eq_none (le_of_not_lt hc)] at h
  exact Option.noConfusion h

/-- The PTR lock order never repeats a name: the new PTR name is only
appended when it differs from the old one. -/
theorem ptrLockOrder_nodup (oldPTRName newPTRName : String) :
    (ptrLockOrder oldPTRName newPTRName).Nodup := by
  unfold ptrLockOrder
  by_cases h1 : oldPTRName = ""
  · by_cases h2 : newPTRName ≠ "" ∧ newPTRName ≠ oldPTRName
    · simp [h1, h2]
    · simp only [h1, ite_not]
      by_cases h3 : newPTRName = "" <;> simp [h2, h3]
  · by_cases h2 : newPTRName ≠ "" ∧ newPTRName ≠ oldPTRName
    · simp [h1, h2, Ne.symm h2.2]
    · simp [h1, h2]

/-- The lock list of a PTR task is `[]` on the skip path and the
`ptrLockOrder` pair otherwise. -/
theorem handlePTRUpdate_locks (event : String) (preData postData : Option RecordData)
    (config : Config) :
    (handlePTRUpdate event preData postData config).locks = [] ∨
    (handlePTRUpdate event preData postData config).locks =
      ptrLockOrder
        (if isValidIP (sideIP preData) = true then reverseDNSName (sideIP preData) else "")
        (if isValidIP (sideIP postData) = true then reverseDNSName (sideIP postData) else "") := by
  by_cases hskip : (!isValidIP (sideIP preData) && !isValidIP (sideIP postData)) = true
  · left
    simp [handlePTRUpdate, hskip]
  · right
    simp only [handlePTRUpdate, if_neg hskip]
    split
    · rfl
    · split <;> rfl

/-- The lock list a PTR task acquires never repeats a name. -/
theorem ptr_locks_nodup (event : String) (preData postData : Option RecordData)
    (config : Config) : (handlePTRUpdate event preData postData config).locks.Nodup := by
  rcases handlePTRUpdate_locks event preData postData config with h | h <;> rw [h]
  · exact List.nodup_nil
  · exact ptrLockOrder_nodup _ _

/-- Two tasks acquiring locks from the same ordered list can never reach a
circular wait: each task's next index would have to be strictly below the
other task's next index. -/
theorem nodup_no_deadlock {L : List String} (h : L.Nodup) (s : TwoTaskState) :
    ¬ Deadlocked L L s := by
  rintro ⟨⟨x, hx, j, hj, hxj⟩, ⟨y, hy, k, hk, hyk⟩⟩
  have h1 : s.a1 = j :=
    List.getElem?_inj (lt_length_of_lookup hx) h (hx.trans hxj.symm)
  have h2 : s.a2 = k :=
    List.getElem?_inj (lt_length_of_lookup hy) h (hy.trans hyk.symm)
  omega

/-- C9 (amended claim theorem). Two concurrent PTR-update tasks that
acquire their lock names in the same order never deadlock: no state, known
reachable or not, is a circular wait for them.  (The counterexample shows
this fails for tasks whose old/new PTR names are swapped, since the
old-then-new acquisition rule then yields opposite orders.) -/
theorem c9_same_order_no_deadlock (e1 : String) (pre1 post1 : Option RecordData)
    (e2 : String) (pre2 post2 : Option RecordData) (config : Config) (s : TwoTaskState)
    (h : (handlePTRUpdate e1 pre1 post1 config).locks =
      (handlePTRUpdate e2 pre2 post2 config).locks) :
    ¬ Deadlocked (handlePTRUpdate e1 pre1 post1 config).locks
      (handlePTRUpdate e2 pre2 post2 config).locks s := by
  rw [h]
  exact nodup_no_deadlock (ptr_locks_nodup e2 pre2 post2 config) s

/-- Witness for the amended C9: two identical concurrent updated events
never reach a circular wait. -/
theorem c9_witness :
    ¬ Deadlocked
      (handlePTRUpdate "updated" (some ⟨"h1", "h1.example.com.", "A", "10.0.0.1", none, false⟩)
        (some ⟨"h2", "h2.example.com.", "A", "10.0.0.2", none, false⟩) sampleConfig).locks
      (handlePTRUpdate "updated" (some ⟨"h1", "h1.example.com.", "A", "10.0.0.1", none, false⟩)
        (some ⟨"h2", "h2.example.com.", "A", "10.0.0.2", none, false⟩) sampleConfig).locks
      ⟨1, 1⟩ :=
  c9_same_order_no_deadlock "updated"
    (some ⟨"h1", "h1.example.com.", "A", "10.0.0.1", none, false⟩)
    (some ⟨"h2", "h2.example.com.", "A", "10.0.0.2", none, false⟩)
    "updated"
    (some ⟨"h1", "h1.example.com.", "A", "10.0.0.1", none, false⟩)
    (some ⟨"h2", "h2.example.com.", "A", "10.0.0.2", none, false⟩)
    sampleConfig ⟨1, 1⟩ rfl

/-- The lock list of the PTR task for the updated event `10.0.0.1 →
10.0.0.2`. -/
def swapLocks1 : List String :=
  (handlePTRUpdate "updated" (some ⟨"h1", "h1.example.com.", "A", "10.0.0.1", none, false⟩)
    (some ⟨"h1", "h1.example.com.", "A", "10.0.0.2", none, false⟩) sampleConfig).locks

/-- The lock list of the PTR task for the swapped updated event `10.0.0.2 →
10.0.0.1`. -/
def swapLocks2 : List String :=
  (handlePTRUpdate "updated" (some ⟨"h1", "h1.example.com.", "A", "10.0.0.2", none, false⟩)
    (some ⟨"h1", "h1.example.com.", "A", "10.0.0.1", none, false⟩) sampleConfig).locks

/-- A deadlocked state is stuck: no acquisition step leaves it. -/
theorem deadlocked_no_step {L1 L2 : List String} {s s' : TwoTaskState}
    (h : Deadlocked L1 L2 s) (hstep : LockStep L1 L2 s s') : False := by
  obtain ⟨⟨x, hx, hxheld⟩, ⟨y, hy, hyheld⟩⟩ := h
  cases hstep with
  | acquire1 z hz hnh =>
    rw [hx] at hz
    injection hz with hz
    subst hz
    exact hnh hxheld
  | acquire2 z hz hnh =>
    rw [hy] at hz
    injection hz with hz
    subst hz
    exact hnh hyheld

/-- C9 (counterexample). Two concurrent updated-event PTR tasks whose old
and new IPs are swapped acquire the two PTR-name locks in opposite orders
(old first, then new); after each has taken its first lock — a reachable
interleaving — each task's next lock is held by the other: the state is a
circular wait from which no further acquisition step exists, i.e. a
deadlock, contradicting the claim that the fixed old-then-new order
prevents it. -/
theorem c9_counterexample :
    swapLocks1 = ["1.0.0.10.in-addr.arpa.", "2.0.0.10.in-addr.arpa."] ∧
    swapLocks2 = ["2.0.0.10.in-addr.arpa.", "1.0.0.10.in-addr.arpa."] ∧
    LockReachable swapLocks1 swapLocks2 ⟨1, 1⟩ ∧
    Deadlocked swapLocks1 swapLocks2 ⟨1, 1⟩ ∧
    ∀ s', ¬ LockStep swapLocks1 swapLocks2 ⟨1, 1⟩ s' := by
  have h1 : swapLocks1 = ["1.0.0.10.in-addr.arpa.", "2.0.0.10.in-addr.arpa."] := by decide
  have h2 : swapLocks2 = ["2.0.0.10.in-addr.arpa.", "1.0.0.10.in-addr.arpa."] := by decide
  have hdead : Deadlocked swapLocks1 swapLocks2 ⟨1, 1⟩ := by
    constructor
    · exact ⟨"2.0.0.10.in-addr.arpa.", by rw [h1]; decide, 0, Nat.zero_lt_one, by rw [h2]; decide⟩
    · exact ⟨"1.0.0.10.in-addr.arpa.", by rw [h2]; decide, 0, Nat.zero_lt_one, by rw [h1]; decide⟩
  have hreach : LockReachable swapLocks1 swapLocks2 ⟨1, 1⟩ := by
    have step1 : LockStep swapLocks1 swapLocks2 ⟨0, 0⟩ ⟨1, 0⟩ := by
      apply LockStep.acquire1 ⟨0, 0⟩ "1.0.0.10.in-addr.arpa."
      · rw [h1]; decide
      · rintro ⟨j, hj, hx⟩
        exact Nat.not_lt_zero j hj
    have step2 : LockStep swapLocks1 swapLocks2 ⟨1, 0⟩ ⟨1, 1⟩ := by
      apply LockStep.acquire2 ⟨1, 0⟩ "2.0.0.10.in-addr.arpa."
      · rw [h2]; decide
      · rintro ⟨j, hj, hx⟩
        have hj1 : j < 1 := hj
        rcases Nat.lt_one_iff.mp hj1 with rfl
        rw [h1] at hx
        exact absurd hx (by decide)
    exact LockReachable.step (LockReachable.step LockReachable.init step1) step2
  exact ⟨h1, h2, hreach, hdead, fun s' hstep => deadlocked_no_step hdead hstep⟩
